import Mathlib

/-!
# The API schema of `resolver/schema.go`

The Go package `resolver` consists of one constant, `Schema`, holding the text of
a GraphQL schema (schema block, object types, input types, one scalar).  This
file embeds that schema as a value of a small abstract syntax of GraphQL type
definitions, one entry per declaration and in the order of the text, and proves
properties of it.

The abstract syntax is the one of the GraphQL schema language: a type reference
is a name, a list `[T]` or a non-null `T!`; a field has arguments and a return
type; a definition is an object type, an input type, a scalar, an interface, a
union or an enum.  The lines of `#` comment that precede a declaration are kept
as its description.
-/

namespace resolver

/-! ## Abstract syntax -/

/-- A type reference: `Name`, `[T]` or `T!`. -/
inductive GType
  | named (name : String)
  | list (elem : GType)
  | nonNull (inner : GType)
deriving DecidableEq, Repr

/-- A value as it travels on the wire: null, the three leaf kinds the schema
uses, lists and objects (an association list from field names to values; a
field that is absent has no entry). -/
inductive Value
  | null
  | int (n : Int)
  | str (s : String)
  | bool (b : Bool)
  | list (items : List Value)
  | obj (fields : List (String × Value))
deriving Repr

/-- An argument of a field, or a field of an input type: `name: Type` with an
optional default-value clause `= value`. -/
structure InputValue where
  desc : List String
  name : String
  type : GType
  default : Option Value
deriving Repr

/-- A field of an object type: `name(args): Type`. -/
structure Field where
  desc : List String
  name : String
  args : List InputValue
  type : GType
deriving Repr

/-- A type definition of the schema language. -/
inductive TypeDef
  | object (desc : List String) (name : String) (fields : List Field)
  | input (desc : List String) (name : String) (fields : List InputValue)
  | scalar (desc : List String) (name : String)
  | interface (desc : List String) (name : String) (fields : List Field)
  | union (desc : List String) (name : String) (members : List String)
  | enum (desc : List String) (name : String) (values : List String)
deriving Repr

/-- A schema document: the `schema { ... }` block, as pairs of operation and
type name, and the type definitions in the order of the text. -/
structure Document where
  entryPoints : List (String × String)
  types : List TypeDef
deriving Repr

open GType in
/-- The constant `Schema` of `resolver/schema.go`, declaration by declaration. -/
def Schema : Document where
  entryPoints := [("query", "Query"), ("mutation", "Mutation")]
  types := [
    .object [] "Query" [
      ⟨["A post object."],
        "post", [⟨[], "id", nonNull (named "String"), none⟩], nonNull (named "Post")⟩,
      ⟨["A user profile object."],
        "profile", [], nonNull (named "User")⟩,
      ⟨["A slice of thread."],
        "threadSlice",
        [⟨[], "tags", list (nonNull (named "String")), none⟩,
         ⟨[], "query", nonNull (named "SliceQuery"), none⟩],
        nonNull (named "ThreadSlice")⟩,
      ⟨["A thread object."],
        "thread", [⟨[], "id", nonNull (named "String"), none⟩], nonNull (named "Thread")⟩,
      ⟨["The count of unread notifications."],
        "unreadNotiCount", [], nonNull (named "UnreadNotiCount")⟩,
      ⟨["Notifications for current user."],
        "notification",
        [⟨[], "type", nonNull (named "String"), none⟩,
         ⟨[], "query", nonNull (named "SliceQuery"), none⟩],
        nonNull (named "NotiSlice")⟩,
      ⟨["Containing mainTags and tagTree."],
        "tags", [], nonNull (named "Tags")⟩],
    .object [] "Mutation" [
      ⟨["Publish a new post."],
        "pubPost", [⟨[], "post", nonNull (named "PostInput"), none⟩], nonNull (named "Post")⟩,
      ⟨["Register/Login via email address. An email containing login info will be sent to the provided email address."],
        "auth", [⟨[], "email", nonNull (named "String"), none⟩], nonNull (named "Boolean")⟩,
      ⟨["Set the Name of user."],
        "setName", [⟨[], "name", nonNull (named "String"), none⟩], nonNull (named "User")⟩,
      ⟨["Directly edit tags subscribed by user."],
        "syncTags", [⟨[], "tags", nonNull (list (named "String")), none⟩], nonNull (named "User")⟩,
      ⟨["Add tags subscribed by user."],
        "addSubbedTags",
        [⟨[], "tags", nonNull (list (nonNull (named "String"))), none⟩], nonNull (named "User")⟩,
      ⟨["Delete tags subscribed by user."],
        "delSubbedTags",
        [⟨[], "tags", nonNull (list (nonNull (named "String"))), none⟩], nonNull (named "User")⟩,
      ⟨["Publish a new thread."],
        "pubThread", [⟨[], "thread", nonNull (named "ThreadInput"), none⟩], nonNull (named "Thread")⟩],
    .input ["Input object describing a Post to be published."] "PostInput" [
      ⟨[], "threadID", nonNull (named "String"), none⟩,
      ⟨[], "anonymous", nonNull (named "Boolean"), none⟩,
      ⟨[], "content", nonNull (named "String"), none⟩,
      ⟨["Set quoting PostIDs."], "quotes", list (nonNull (named "String")), none⟩],
    .object ["Object describing a Post."] "Post" [
      ⟨[], "id", [], nonNull (named "String")⟩,
      ⟨[], "anonymous", [], nonNull (named "Boolean")⟩,
      ⟨[], "author", [], nonNull (named "String")⟩,
      ⟨[], "content", [], nonNull (named "String")⟩,
      ⟨[], "createTime", [], nonNull (named "Time")⟩,
      ⟨[], "quotes", [], list (nonNull (named "Post"))⟩,
      ⟨[], "quoteCount", [], nonNull (named "Int")⟩],
    .object ["PostSlice object is for selecting specific 'slice' of Post objects to return. Affects returned SliceInfo."]
      "PostSlice" [
      ⟨[], "posts", [], nonNull (list (named "Post"))⟩,
      ⟨[], "sliceInfo", [], nonNull (named "SliceInfo")⟩],
    .object [] "User" [
      ⟨[], "email", [], nonNull (named "String")⟩,
      ⟨["The Name of user. Required when not posting anonymously."], "name", [], named "String"⟩,
      ⟨["Tags saved by user."], "tags", [], list (nonNull (named "String"))⟩],
    .input ["Construct a new thread."] "ThreadInput" [
      ⟨["Toggle anonymousness. If true, a new ID will be generated in each thread."],
        "anonymous", nonNull (named "Boolean"), none⟩,
      ⟨[], "content", nonNull (named "String"), none⟩,
      ⟨["Required. Only one mainTag is allowed."], "mainTag", nonNull (named "String"), none⟩,
      ⟨["Optional, maximum of 4."], "subTags", list (nonNull (named "String")), none⟩,
      ⟨["Optional. If not set, the title will be '无题'."], "title", named "String", none⟩],
    .object [] "Thread" [
      ⟨["UUID with 8 chars in length, and will increase to 9 after 30 years."],
        "id", [], nonNull (named "String")⟩,
      ⟨["Thread was published anonymously or not."], "anonymous", [], nonNull (named "Boolean")⟩,
      ⟨["Same format as id if anonymous, name of User otherwise."],
        "author", [], nonNull (named "String")⟩,
      ⟨[], "content", [], nonNull (named "String")⟩,
      ⟨[], "createTime", [], nonNull (named "Time")⟩,
      ⟨["Only one mainTag is allowed."], "mainTag", [], nonNull (named "String")⟩,
      ⟨["Optional, maximum of 4."], "subTags", [], list (nonNull (named "String"))⟩,
      ⟨["Default to '无题'."], "title", [], named "String"⟩,
      ⟨[], "replies", [⟨[], "query", nonNull (named "SliceQuery"), none⟩], nonNull (named "PostSlice")⟩,
      ⟨[], "replyCount", [], nonNull (named "Int")⟩],
    .object [] "ThreadSlice" [
      ⟨[], "threads", [], nonNull (list (named "Thread"))⟩,
      ⟨[], "sliceInfo", [], nonNull (named "SliceInfo")⟩],
    .object ["Count of different types of unread notifications."] "UnreadNotiCount" [
      ⟨["Announcement messages from server."], "system", [], nonNull (named "Int")⟩,
      ⟨["Threads that are replied."], "replied", [], nonNull (named "Int")⟩,
      ⟨["Posts that are quoted."], "quoted", [], nonNull (named "Int")⟩],
    .object ["NotiSlice object is for selecting specific 'slice' of an object to return. Affects returned SliceInfo."]
      "NotiSlice" [
      ⟨["Announcement messages from server."], "system", [], list (nonNull (named "SystemNoti"))⟩,
      ⟨["Threads that are replied."], "replied", [], list (nonNull (named "RepliedNoti"))⟩,
      ⟨["Posts that are quoted."], "quoted", [], list (nonNull (named "Quoted"))⟩,
      ⟨["SliceInfo objects are generated by the server. Can be used in consecutive queries."],
        "sliceInfo", [], nonNull (named "SliceInfo")⟩],
    .object ["Object describing a system notification."] "SystemNoti" [
      ⟨["ID contains different types of format."], "id", [], nonNull (named "String")⟩,
      ⟨["Type of Notification. \"system\", \"replied\" or \"quoted\"."],
        "type", [], nonNull (named "String")⟩,
      ⟨["Time when a notify event triggers. E.g. The time when a system event is announced from the server."],
        "eventTime", [], nonNull (named "Time")⟩,
      ⟨["The nofitication is read or not."], "hasRead", [], nonNull (named "Boolean")⟩,
      ⟨["Notification title."], "title", [], nonNull (named "String")⟩,
      ⟨["Notification content."], "content", [], nonNull (named "String")⟩],
    .object ["Object describing a replied notification."] "RepliedNoti" [
      ⟨["ID contains different types of format."], "id", [], nonNull (named "String")⟩,
      ⟨["Type of Notification. \"system\", \"replied\" or \"quoted\"."],
        "type", [], nonNull (named "String")⟩,
      ⟨["Time when a notify event triggers. E.g. The time when a thread is replied."],
        "eventTime", [], nonNull (named "Time")⟩,
      ⟨["The nofitication is read or not."], "hasRead", [], nonNull (named "Boolean")⟩,
      ⟨["The thread object that is replied."], "thread", [], nonNull (named "Thread")⟩,
      ⟨["Array of users that replied. Same as the corresponding author field in the object \"Post\"."],
        "repliers", [], nonNull (list (nonNull (named "String")))⟩],
    .object ["Object describing a quoted notification."] "Quoted" [
      ⟨["ID contains different types of format."], "id", [], nonNull (named "String")⟩,
      ⟨["Type of Notification. \"system\", \"replied\" or \"quoted\"."],
        "type", [], nonNull (named "String")⟩,
      ⟨["Time when a notify event triggers. E.g. The time when a post is quoted."],
        "eventTime", [], nonNull (named "Time")⟩,
      ⟨[], "hasRead", [], nonNull (named "Boolean")⟩,
      ⟨["The thread object that is quoted in."], "thread", [], nonNull (named "Thread")⟩,
      ⟨["The post object that is quoted."], "post", [], nonNull (named "Post")⟩,
      ⟨["Array of users that quoted the post. Same as the corresponding author field in the object \"Post\"."],
        "quoters", [], nonNull (list (nonNull (named "String")))⟩],
    .scalar [] "Time",
    .object ["SliceInfo objects are generated by the server. Can be used in consecutive queries."]
      "SliceInfo" [
      ⟨[], "firstCursor", [], nonNull (named "String")⟩,
      ⟨[], "lastCursor", [], nonNull (named "String")⟩],
    .input ["SliceQuery object is for selecting specific 'slice' of an object to return. Affects returned SliceInfo."]
      "SliceQuery" [
      ⟨["Either this field or 'after' is required.", "An empty string means slice from the beginning."],
        "before", named "String", none⟩,
      ⟨["Either this field or 'before' is required.", "An empty string means slice to the end."],
        "after", named "String", none⟩,
      ⟨["Set the amount of returned items."], "limit", nonNull (named "Int"), none⟩],
    .object [] "Tags" [
      ⟨["Main tags are predefined manually."], "mainTags", [], nonNull (list (nonNull (named "String")))⟩,
      ⟨["Recommended tags are picked manually."],
        "recommended", [], nonNull (list (nonNull (named "String")))⟩,
      ⟨[], "tree", [⟨[], "query", named "String", none⟩], list (nonNull (named "TagTreeNode"))⟩],
    .object [] "TagTreeNode" [
      ⟨[], "mainTag", [], nonNull (named "String")⟩,
      ⟨[], "subTags", [], list (nonNull (named "String"))⟩]]

/-! ## The text of the constant -/

/-- The text of the constant `Schema` as `resolver/schema.go` has it between the
two backquotes, line by line. -/
def schemaText : List String := [
  "",
  "",
  "schema \x7b",
  "    query: Query",
  "    mutation: Mutation",
  "\x7d",
  "",
  "type Query \x7b",
  "",
  "    # A post object.",
  "    post(id: String!): Post!",
  "",
  "",
  "    # A user profile object.",
  "    profile(): User!",
  "",
  "",
  "    # A slice of thread.",
  "    threadSlice(tags: [String!], query: SliceQuery!): ThreadSlice!",
  "    # A thread object.",
  "    thread(id: String!): Thread!",
  "",
  "",
  "    # The count of unread notifications.",
  "    unreadNotiCount(): UnreadNotiCount!",
  "    # Notifications for current user.",
  "    notification(type: String!, query: SliceQuery!): NotiSlice!",
  "",
  "",
  "    # Containing mainTags and tagTree.",
  "    tags(): Tags!",
  "",
  "\x7d",
  "",
  "type Mutation \x7b",
  "",
  "    # Publish a new post.",
  "    pubPost(post: PostInput!): Post!",
  "",
  "",
  "    # Register/Login via email address. An email containing login info will be sent to the provided email address.",
  "    auth(email: String!): Boolean!",
  "    # Set the Name of user.",
  "    setName(name: String!): User!",
  "    # Directly edit tags subscribed by user.",
  "    syncTags(tags: [String]!): User!",
  "    # Add tags subscribed by user.",
  "    addSubbedTags(tags: [String!]!): User!",
  "    # Delete tags subscribed by user.",
  "    delSubbedTags(tags: [String!]!): User!",
  "",
  "",
  "    # Publish a new thread.",
  "    pubThread(thread: ThreadInput!): Thread!",
  "",
  "\x7d",
  "",
  "",
  "# Input object describing a Post to be published.",
  "input PostInput \x7b",
  "    threadID: String!",
  "    anonymous: Boolean!",
  "    content: String!",
  "    # Set quoting PostIDs.",
  "    quotes: [String!]",
  "\x7d",
  "",
  "# Object describing a Post.",
  "type Post \x7b",
  "    id: String!",
  "    anonymous: Boolean!",
  "    author: String!",
  "    content: String!",
  "    createTime: Time!",
  "    quotes: [Post!]",
  "    quoteCount: Int!",
  "\x7d",
  "",
  "# PostSlice object is for selecting specific 'slice' of Post objects to return. Affects returned SliceInfo.",
  "type PostSlice \x7b",
  "    posts: [Post]!",
  "    sliceInfo: SliceInfo!",
  "\x7d",
  "",
  "",
  "type User \x7b",
  "    email: String!",
  "    # The Name of user. Required when not posting anonymously.",
  "    name: String",
  "    # Tags saved by user.",
  "    tags: [String!]",
  "\x7d",
  "",
  "",
  "# Construct a new thread.",
  "input ThreadInput \x7b",
  "    # Toggle anonymousness. If true, a new ID will be generated in each thread.",
  "    anonymous: Boolean!",
  "    content: String!",
  "    # Required. Only one mainTag is allowed.",
  "    mainTag: String!",
  "    # Optional, maximum of 4.",
  "    subTags: [String!]",
  "    # Optional. If not set, the title will be '无题'.",
  "    title: String",
  "\x7d",
  "",
  "type Thread \x7b",
  "    # UUID with 8 chars in length, and will increase to 9 after 30 years.",
  "    id: String!",
  "    # Thread was published anonymously or not.",
  "    anonymous: Boolean!",
  "    # Same format as id if anonymous, name of User otherwise.",
  "    author: String!",
  "    content: String!",
  "    createTime: Time!",
  "    # Only one mainTag is allowed.",
  "    mainTag: String!",
  "    # Optional, maximum of 4.",
  "    subTags: [String!]",
  "    # Default to '无题'.",
  "    title: String",
  "    replies(query: SliceQuery!): PostSlice!",
  "    replyCount: Int!",
  "\x7d",
  "",
  "type ThreadSlice \x7b",
  "    threads: [Thread]!",
  "    sliceInfo: SliceInfo!",
  "\x7d",
  "",
  "",
  "# Count of different types of unread notifications.",
  "type UnreadNotiCount \x7b",
  "    # Announcement messages from server.",
  "    system: Int!",
  "    # Threads that are replied.",
  "    replied: Int!",
  "    # Posts that are quoted.",
  "    quoted: Int!",
  "\x7d",
  "",
  "# NotiSlice object is for selecting specific 'slice' of an object to return. Affects returned SliceInfo.",
  "type NotiSlice \x7b",
  "    # Announcement messages from server.",
  "    system: [SystemNoti!]",
  "    # Threads that are replied.",
  "    replied: [RepliedNoti!]",
  "    # Posts that are quoted.",
  "    quoted: [Quoted!]",
  "    # SliceInfo objects are generated by the server. Can be used in consecutive queries.",
  "    sliceInfo: SliceInfo!",
  "\x7d",
  "",
  "# Object describing a system notification.",
  "type SystemNoti \x7b",
  "    # ID contains different types of format.",
  "    id: String!",
  "    # Type of Notification. \"system\", \"replied\" or \"quoted\".",
  "    type: String!",
  "    # Time when a notify event triggers. E.g. The time when a system event is announced from the server.",
  "    eventTime: Time!",
  "    # The nofitication is read or not.",
  "    hasRead: Boolean!",
  "    # Notification title.",
  "    title: String!",
  "    # Notification content.",
  "    content: String!",
  "\x7d",
  "",
  "# Object describing a replied notification.",
  "type RepliedNoti \x7b",
  "    # ID contains different types of format.",
  "    id: String!",
  "    # Type of Notification. \"system\", \"replied\" or \"quoted\".",
  "    type: String!",
  "    # Time when a notify event triggers. E.g. The time when a thread is replied.",
  "    eventTime: Time!",
  "    # The nofitication is read or not.",
  "    hasRead: Boolean!",
  "    # The thread object that is replied.",
  "    thread: Thread!",
  "    # Array of users that replied. Same as the corresponding author field in the object \"Post\".",
  "    repliers: [String!]!",
  "\x7d",
  "",
  "# Object describing a quoted notification.",
  "type Quoted \x7b",
  "    # ID contains different types of format.",
  "    id: String!",
  "    # Type of Notification. \"system\", \"replied\" or \"quoted\".",
  "    type: String!",
  "    # Time when a notify event triggers. E.g. The time when a post is quoted.",
  "    eventTime: Time!",
  "    hasRead: Boolean!",
  "    # The thread object that is quoted in.",
  "    thread: Thread!",
  "    # The post object that is quoted.",
  "    post: Post!",
  "    # Array of users that quoted the post. Same as the corresponding author field in the object \"Post\".",
  "    quoters: [String!]!",
  "\x7d",
  "",
  "",
  "scalar Time",
  "",
  "# SliceInfo objects are generated by the server. Can be used in consecutive queries.",
  "type SliceInfo \x7b",
  "    firstCursor: String!",
  "    lastCursor: String!",
  "\x7d",
  "",
  "# SliceQuery object is for selecting specific 'slice' of an object to return. Affects returned SliceInfo.",
  "input SliceQuery \x7b",
  "    # Either this field or 'after' is required.",
  "    # An empty string means slice from the beginning.",
  "    before: String",
  "    # Either this field or 'before' is required.",
  "    # An empty string means slice to the end.",
  "    after: String",
  "    # Set the amount of returned items.",
  "    limit: Int!",
  "\x7d",
  "",
  "",
  "type Tags \x7b",
  "    # Main tags are predefined manually.",
  "    mainTags: [String!]!",
  "    # Recommended tags are picked manually.",
  "    recommended: [String!]!",
  "    tree(query: String): [TagTreeNode!]",
  "\x7d",
  "",
  "type TagTreeNode \x7b",
  "    mainTag: String!",
  "    subTags: [String!]",
  "\x7d",
  "",
  ""]

/-- A line without its indentation. -/
def stripLine : List Char → List Char
  | ' ' :: cs => stripLine cs
  | cs => cs

/-- A line without the empty argument lists `()`, which declare no argument. -/
def dropEmptyParens : List Char → List Char
  | '(' :: ')' :: cs => dropEmptyParens cs
  | c :: cs => c :: dropEmptyParens cs
  | [] => []

/-- The lines of a text without indentation, empty argument lists and blank lines. -/
def normalize (ls : List String) : List String :=
  (ls.map (fun l => String.mk (dropEmptyParens (stripLine l.data)))).filter (fun l => l != "")

/-- A type reference as the schema language writes it. -/
def GType.render : GType → String
  | .named n => n
  | .list e => "[" ++ e.render ++ "]"
  | .nonNull t => t.render ++ "!"

/-- A description as the lines of `#` comment it is written in. -/
def renderDesc (ds : List String) : List String :=
  ds.map (fun s => "# " ++ s)

/-- A value as the schema language writes it (objects and lists by their items). -/
def renderLeaf : Value → String
  | .null => "null"
  | .int n => toString n
  | .str s => "\"" ++ s ++ "\""
  | .bool b => toString b
  | .list _ => "[..]"
  | .obj _ => "\x7b..\x7d"

/-- An argument or input field, `name: Type` and its default value if any. -/
def InputValue.render (a : InputValue) : String :=
  a.name ++ ": " ++ a.type.render ++
    (match a.default with
     | none => ""
     | some v => " = " ++ renderLeaf v)

/-- A field, `name(args): Type`. -/
def Field.render (f : Field) : String :=
  f.name ++
    (if f.args.isEmpty then ""
     else "(" ++ ", ".intercalate (f.args.map InputValue.render) ++ ")") ++
    ": " ++ f.type.render

/-- The lines of a type definition. -/
def TypeDef.render : TypeDef → List String
  | .object d n fs =>
    renderDesc d ++ ["type " ++ n ++ " \x7b"] ++
      fs.flatMap (fun f => renderDesc f.desc ++ [f.render]) ++ ["\x7d"]
  | .interface d n fs =>
    renderDesc d ++ ["interface " ++ n ++ " \x7b"] ++
      fs.flatMap (fun f => renderDesc f.desc ++ [f.render]) ++ ["\x7d"]
  | .input d n fs =>
    renderDesc d ++ ["input " ++ n ++ " \x7b"] ++
      fs.flatMap (fun f => renderDesc f.desc ++ [f.render]) ++ ["\x7d"]
  | .scalar d n => renderDesc d ++ ["scalar " ++ n]
  | .union d n ms => renderDesc d ++ ["union " ++ n ++ " = " ++ " | ".intercalate ms]
  | .enum d n vs => renderDesc d ++ ["enum " ++ n ++ " \x7b"] ++ vs ++ ["\x7d"]

/-- The lines of a schema document. -/
def Document.render (d : Document) : List String :=
  ["schema \x7b"] ++ d.entryPoints.map (fun p => p.1 ++ ": " ++ p.2) ++ ["\x7d"] ++
    d.types.flatMap TypeDef.render

/-! ## Reading a schema -/

/-- The name under all list and non-null wrappers. -/
def GType.namedType : GType → String
  | .named n => n
  | .list e => e.namedType
  | .nonNull t => t.namedType

/-- Whether the type is written with a trailing `!`. -/
def GType.isNonNull : GType → Bool
  | .nonNull _ => true
  | _ => false

/-- The type without its outer `!`. -/
def GType.nullable : GType → GType
  | .nonNull t => t.nullable
  | t => t

/-- Whether the type is a list, with or without an outer `!`. -/
def GType.isList (t : GType) : Bool :=
  match t.nullable with
  | .list _ => true
  | _ => false

/-- The element type of a list type. -/
def GType.elem? (t : GType) : Option GType :=
  match t.nullable with
  | .list e => some e
  | _ => none

def TypeDef.name : TypeDef → String
  | .object _ n _ => n
  | .input _ n _ => n
  | .scalar _ n => n
  | .interface _ n _ => n
  | .union _ n _ => n
  | .enum _ n _ => n

def TypeDef.isObject : TypeDef → Bool
  | .object _ _ _ => true
  | _ => false

def TypeDef.isInput : TypeDef → Bool
  | .input _ _ _ => true
  | _ => false

def TypeDef.isScalar : TypeDef → Bool
  | .scalar _ _ => true
  | _ => false

def TypeDef.isInterface : TypeDef → Bool
  | .interface _ _ _ => true
  | _ => false

def TypeDef.isUnion : TypeDef → Bool
  | .union _ _ _ => true
  | _ => false

def TypeDef.isEnum : TypeDef → Bool
  | .enum _ _ _ => true
  | _ => false

/-- The fields of an object (or interface) type. -/
def TypeDef.fields : TypeDef → List Field
  | .object _ _ fs => fs
  | .interface _ _ fs => fs
  | _ => []

/-- The fields of an input type. -/
def TypeDef.inputFields : TypeDef → List InputValue
  | .input _ _ fs => fs
  | _ => []

/-- The names of the fields a definition declares, in order. -/
def TypeDef.fieldNames : TypeDef → List String
  | .object _ _ fs => fs.map (·.name)
  | .interface _ _ fs => fs.map (·.name)
  | .input _ _ fs => fs.map (·.name)
  | _ => []

/-- The first definition with the given name. -/
def Document.find? (d : Document) (n : String) : Option TypeDef :=
  d.types.find? (fun td => td.name == n)

/-- The names of all definitions, in order. -/
def Document.typeNames (d : Document) : List String :=
  d.types.map (·.name)

/-- The type name the schema block binds to an operation (`query`, `mutation`). -/
def Document.rootType (d : Document) (op : String) : Option String :=
  d.entryPoints.lookup op

/-- The fields of the object type with the given name. -/
def Document.objectFields (d : Document) (n : String) : Option (List Field) :=
  match d.find? n with
  | some (.object _ _ fs) => some fs
  | _ => none

/-- The fields of the input type with the given name. -/
def Document.inputFieldsOf (d : Document) (n : String) : Option (List InputValue) :=
  match d.find? n with
  | some (.input _ _ fs) => some fs
  | _ => none

/-- The fields of the root object type of an operation. -/
def Document.rootFields (d : Document) (op : String) : Option (List Field) :=
  match d.rootType op with
  | some n => d.objectFields n
  | none => none

/-- A field of an object type, by type name and field name. -/
def Document.field? (d : Document) (ty fld : String) : Option Field :=
  match d.objectFields ty with
  | some fs => fs.find? (fun f => f.name == fld)
  | none => none

/-- A field of an input type, by type name and field name. -/
def Document.inputField? (d : Document) (ty fld : String) : Option InputValue :=
  match d.inputFieldsOf ty with
  | some fs => fs.find? (fun f => f.name == fld)
  | none => none

/-- A field as `(name, argument names)`. -/
def Field.signature (f : Field) : String × List String :=
  (f.name, f.args.map (·.name))

/-- A field as `(name, arguments with their types, return type)`. -/
def Field.shape (f : Field) : String × List (String × GType) × GType :=
  (f.name, f.args.map (fun a => (a.name, a.type)), f.type)

/-! ## Pagination -/

/-- Whether the field takes an argument of type `SliceQuery` (with or without `!`). -/
def Field.hasSliceQueryArg (f : Field) : Bool :=
  f.args.any (fun a => a.type.nullable == .named "SliceQuery")

/-- Whether `n` names an object type that declares `sliceInfo: SliceInfo!`
together with at least one list-typed field. -/
def Document.isSliceType (d : Document) (n : String) : Bool :=
  match d.objectFields n with
  | some fs =>
    fs.any (fun f => f.name == "sliceInfo" && f.type == .nonNull (.named "SliceInfo")) &&
    fs.any (fun f => f.type.isList)
  | none => false

/-- Whether the return type of the field (with or without `!`) is such a slice type. -/
def Field.returnsSlice (d : Document) (f : Field) : Bool :=
  match f.type.nullable with
  | .named n => d.isSliceType n
  | _ => false

/-- Every field of every object type, as `(type name, field)`. -/
def Document.allObjectFields (d : Document) : List (String × Field) :=
  d.types.flatMap (fun td => if td.isObject then td.fields.map (fun f => (td.name, f)) else [])

/-! ## Notifications -/

/-- The fields the three notification types have in common. -/
def commonNotiFields : List (String × List (String × GType) × GType) :=
  [("id", [], .nonNull (.named "String")),
   ("type", [], .nonNull (.named "String")),
   ("eventTime", [], .nonNull (.named "Time")),
   ("hasRead", [], .nonNull (.named "Boolean"))]

/-- The shapes of the fields of the object type `n` (empty when there is none). -/
def Document.shapesOf (d : Document) (n : String) : List (String × List (String × GType) × GType) :=
  match d.objectFields n with
  | some fs => fs.map Field.shape
  | none => []

/-- The names of the fields of `n` that neither of `others` declares in the same shape. -/
def Document.ownFields (d : Document) (n : String) (others : List String) : List String :=
  ((d.shapesOf n).filter (fun s => others.all (fun o => !(d.shapesOf o).contains s))).map (·.1)

/-! ## Conformance of values to types -/

/-- The range of the built-in scalar `Int`: signed 32 bits. -/
def inIntRange (i : Int) : Bool :=
  decide (-2147483648 ≤ i) && decide (i ≤ 2147483647)

/-- Whether `n` is declared as a scalar by the schema. -/
def Document.isCustomScalar (d : Document) (n : String) : Bool :=
  match d.find? n with
  | some (.scalar _ _) => true
  | _ => false

/-- Whether a non-null value conforms to the leaf type named `n`.  The schema
does not say how a scalar it declares is written on the wire, so for those the
answer is the parameter `customOk`; otherwise `n` is one of the built-in scalars
String, Int, Boolean. -/
def leafConforms (d : Document) (customOk : String → Value → Bool) (n : String) (v : Value) : Bool :=
  if d.isCustomScalar n then customOk n v
  else
    match v with
    | .int i => n == "Int" && inIntRange i
    | .str _ => n == "String"
    | .bool _ => n == "Boolean"
    | _ => false

/-- Whether a field of an input type must be present: its type is non-null and
it has no default value. -/
def InputValue.required (a : InputValue) : Bool :=
  a.type.isNonNull && a.default.isNone

/-- The names of the fields of the input type `n` that must be present. -/
def Document.requiredInputFields (d : Document) (n : String) : Option (List String) :=
  (d.inputFieldsOf n).map (fun fs => (fs.filter InputValue.required).map (·.name))

/-- For a type whose values are objects (an input type or an object type): its
fields as `(name, type)` and the names of those that must be present. -/
def Document.record (d : Document) (n : String) :
    Option (List (String × GType) × List String) :=
  match d.find? n with
  | some (.input _ _ fs) =>
    some (fs.map (fun f => (f.name, f.type)), (fs.filter InputValue.required).map (·.name))
  | some (.object _ _ fs) =>
    some (fs.map (fun f => (f.name, f.type)), (fs.filter (fun f => f.type.isNonNull)).map (·.name))
  | _ => none

mutual
/-- Whether a value conforms to a type of the schema, by the rule of the GraphQL
type system: null conforms exactly to the types without `!`; a list conforms to
a list type when each item conforms to the element type; an object conforms to
an input or object type when its keys are distinct, each key is a declared
field whose type the value conforms to, and every field that must be present is
(so a nullable field may be absent or null); a leaf conforms as `leafConforms`
says. -/
def conforms (d : Document) (customOk : String → Value → Bool) : GType → Value → Bool
  | t, .null => !t.isNonNull
  | t, .int i =>
    match t.nullable with
    | .named n => leafConforms d customOk n (.int i)
    | _ => false
  | t, .str s =>
    match t.nullable with
    | .named n => leafConforms d customOk n (.str s)
    | _ => false
  | t, .bool b =>
    match t.nullable with
    | .named n => leafConforms d customOk n (.bool b)
    | _ => false
  | t, .list vs =>
    match t.nullable with
    | .list e => conformsList d customOk e vs
    | _ => false
  | t, .obj fs =>
    match t.nullable with
    | .named n =>
      match d.record n with
      | some (decls, req) =>
        decide (fs.map Prod.fst).Nodup &&
        req.all (fun k => (fs.map Prod.fst).contains k) &&
        conformsFields d customOk decls fs
      | none => false
    | _ => false
/-- Each item conforms to the element type. -/
def conformsList (d : Document) (customOk : String → Value → Bool) (e : GType) :
    List Value → Bool
  | [] => true
  | v :: vs => conforms d customOk e v && conformsList d customOk e vs
/-- Each entry is a declared field and its value conforms to the field's type. -/
def conformsFields (d : Document) (customOk : String → Value → Bool)
    (decls : List (String × GType)) : List (String × Value) → Bool
  | [] => true
  | (k, v) :: rest =>
    (match decls.lookup k with
     | some t => conforms d customOk t v
     | none => false) &&
    conformsFields d customOk decls rest
end

/-- Conformance of a value that may be absent: absence conforms exactly to the
types without `!`. -/
def conformsOpt (d : Document) (customOk : String → Value → Bool) (t : GType) :
    Option Value → Bool
  | none => !t.isNonNull
  | some v => conforms d customOk t v

/-- A `SliceQuery` value with the given cursors (absent when `none`) and limit. -/
def sliceQueryValue (before after : Option String) (limit : Int) : Value :=
  .obj ((before.map (fun s => ("before", Value.str s))).toList ++
        (after.map (fun s => ("after", Value.str s))).toList ++
        [("limit", .int limit)])

/-- How many of the cursors `before` and `after` an object value supplies. -/
def cursorsSupplied : Value → Nat
  | .obj fs =>
    (if (fs.map Prod.fst).contains "before" then 1 else 0) +
    (if (fs.map Prod.fst).contains "after" then 1 else 0)
  | _ => 0

/-! ## Names, references and reachability -/

/-- The scalars every GraphQL schema has without declaring them. -/
def builtinScalars : List String := ["Int", "Float", "String", "Boolean", "ID"]

/-- The type names a field mentions: its return type and its argument types,
under their list and non-null wrappers. -/
def Field.refs (f : Field) : List String :=
  f.type.namedType :: f.args.map (fun a => a.type.namedType)

/-- The type names a definition mentions. -/
def TypeDef.refs : TypeDef → List String
  | .object _ _ fs => fs.flatMap Field.refs
  | .interface _ _ fs => fs.flatMap Field.refs
  | .input _ _ fs => fs.map (fun f => f.type.namedType)
  | .union _ _ ms => ms
  | .scalar _ _ => []
  | .enum _ _ _ => []

/-- The root types named by the schema block. -/
def Document.roots (d : Document) : List String :=
  d.entryPoints.map Prod.snd

/-- Every type name mentioned anywhere in the document. -/
def Document.referenced (d : Document) : List String :=
  d.roots ++ d.types.flatMap TypeDef.refs

/-- The type names mentioned by the definition named `n`. -/
def Document.refsOf (d : Document) (n : String) : List String :=
  match d.find? n with
  | some td => td.refs
  | none => []

/-- The definition named `a` mentions the type `b`. -/
def Document.RefersTo (d : Document) (a b : String) : Prop :=
  b ∈ d.refsOf a

/-- The type `n` can be reached from one of `roots` by following mentions. -/
def Document.Reachable (d : Document) (roots : List String) (n : String) : Prop :=
  ∃ r ∈ roots, Relation.ReflTransGen d.RefersTo r n

/-- One round of the search: add what the names seen so far mention. -/
def Document.expand (d : Document) (seen : List String) : List String :=
  seen ++ (seen.flatMap d.refsOf).filter (fun n => !seen.contains n)

/-- The names found from `seen` in `k` rounds. -/
def Document.closure (d : Document) : Nat → List String → List String
  | 0, seen => seen
  | k + 1, seen => d.closure k (d.expand seen)

/-- The names found from the roots, with as many rounds as there are definitions. -/
def Document.reachableNames (d : Document) : List String :=
  d.closure d.types.length d.roots

/-- Whether `n` names a scalar: built in, or declared by the schema. -/
def Document.isScalarName (d : Document) (n : String) : Bool :=
  builtinScalars.contains n || d.isCustomScalar n

/-- Whether `n` names an input type of the schema. -/
def Document.isInputName (d : Document) (n : String) : Bool :=
  match d.find? n with
  | some (.input _ _ _) => true
  | _ => false

/-- Whether `n` names an object type of the schema. -/
def Document.isObjectName (d : Document) (n : String) : Bool :=
  match d.find? n with
  | some (.object _ _ _) => true
  | _ => false

/-- The types written in input positions: of every argument of every field, and
of every field of every input type. -/
def Document.inputPositions (d : Document) : List GType :=
  d.types.flatMap (fun td =>
    td.fields.flatMap (fun f => f.args.map (·.type)) ++ td.inputFields.map (·.type))

/-- The return types of the fields of the object types. -/
def Document.outputPositions (d : Document) : List GType :=
  d.allObjectFields.map (fun p => p.2.type)

/-! ## The embedding against the text -/

set_option maxRecDepth 100000 in
/-- Written out, the embedded schema is the text of the constant, line for line
(comments included), up to indentation, blank lines and empty argument lists. -/
theorem render_Schema : Schema.render = normalize schemaText := by
  decide

/-! ## Lemmas on conformance -/

theorem isCustomScalar_String : Schema.isCustomScalar "String" = false := by decide

theorem isCustomScalar_Int : Schema.isCustomScalar "Int" = false := by decide

theorem isCustomScalar_Boolean : Schema.isCustomScalar "Boolean" = false := by decide

theorem record_SliceQuery :
    Schema.record "SliceQuery" =
      some ([("before", .named "String"), ("after", .named "String"),
             ("limit", .nonNull (.named "Int"))], ["limit"]) := by
  decide

theorem record_ThreadInput :
    Schema.record "ThreadInput" =
      some ([("anonymous", .nonNull (.named "Boolean")), ("content", .nonNull (.named "String")),
             ("mainTag", .nonNull (.named "String")),
             ("subTags", .list (.nonNull (.named "String"))), ("title", .named "String")],
            ["anonymous", "content", "mainTag"]) := by
  decide

theorem record_Thread :
    Schema.record "Thread" =
      some ([("id", .nonNull (.named "String")), ("anonymous", .nonNull (.named "Boolean")),
             ("author", .nonNull (.named "String")), ("content", .nonNull (.named "String")),
             ("createTime", .nonNull (.named "Time")), ("mainTag", .nonNull (.named "String")),
             ("subTags", .list (.nonNull (.named "String"))), ("title", .named "String"),
             ("replies", .nonNull (.named "PostSlice")), ("replyCount", .nonNull (.named "Int"))],
            ["id", "anonymous", "author", "content", "createTime", "mainTag", "replies",
             "replyCount"]) := by
  decide

theorem record_PostSlice :
    Schema.record "PostSlice" =
      some ([("posts", .nonNull (.list (.named "Post"))),
             ("sliceInfo", .nonNull (.named "SliceInfo"))], ["posts", "sliceInfo"]) := by
  decide

theorem record_SliceInfo :
    Schema.record "SliceInfo" =
      some ([("firstCursor", .nonNull (.named "String")),
             ("lastCursor", .nonNull (.named "String"))], ["firstCursor", "lastCursor"]) := by
  decide

/-- Every string conforms to `String` and to `String!`. -/
theorem conforms_str (ok : String → Value → Bool) (s : String) :
    conforms Schema ok (.named "String") (.str s) = true ∧
    conforms Schema ok (.nonNull (.named "String")) (.str s) = true := by
  simp [conforms, GType.nullable, leafConforms, isCustomScalar_String]

/-- Every boolean conforms to `Boolean!`. -/
theorem conforms_bool (ok : String → Value → Bool) (b : Bool) :
    conforms Schema ok (.nonNull (.named "Boolean")) (.bool b) = true := by
  simp [conforms, GType.nullable, leafConforms, isCustomScalar_Boolean]

/-- An integer conforms to `Int!` exactly when it is in the 32-bit range. -/
theorem conforms_int (ok : String → Value → Bool) (i : Int) :
    conforms Schema ok (.nonNull (.named "Int")) (.int i) = inIntRange i := by
  simp [conforms, GType.nullable, leafConforms, isCustomScalar_Int]

/-- Only integers in range conform to `Int!`. -/
theorem int_of_conforms (ok : String → Value → Bool) (v : Value)
    (h : conforms Schema ok (.nonNull (.named "Int")) v = true) :
    ∃ i, v = .int i ∧ inIntRange i = true := by
  cases v with
  | int i => exact ⟨i, rfl, by rw [conforms_int] at h; exact h⟩
  | null => simp [conforms, GType.isNonNull] at h
  | str s => simp [conforms, GType.nullable, leafConforms, isCustomScalar_Int] at h
  | bool b => simp [conforms, GType.nullable, leafConforms, isCustomScalar_Int] at h
  | list vs => simp [conforms, GType.nullable] at h
  | obj fs => simp [conforms, GType.nullable, Document.record, Document.find?, Schema, TypeDef.name] at h

/-- A list of strings, of any length, conforms item by item to `String!`. -/
theorem conformsList_strs (ok : String → Value → Bool) (ss : List String) :
    conformsList Schema ok (.nonNull (.named "String")) (ss.map .str) = true := by
  induction ss with
  | nil => simp [conformsList]
  | cons s ss ih => simp [conformsList, (conforms_str ok s).2, ih]

/-- A key of a conforming object is a declared field, and the value found under
it conforms to the declared type. -/
theorem lookup_of_conformsFields (d : Document) (ok : String → Value → Bool)
    (decls : List (String × GType)) (k : String) :
    ∀ fs : List (String × Value), conformsFields d ok decls fs = true →
      k ∈ fs.map Prod.fst →
      ∃ t v, decls.lookup k = some t ∧ fs.lookup k = some v ∧ conforms d ok t v = true := by
  intro fs
  induction fs with
  | nil => intro _ hk; simp at hk
  | cons p rest ih =>
    obtain ⟨k', v'⟩ := p
    intro h hk
    simp only [conformsFields, Bool.and_eq_true] at h
    by_cases hkk : k = k'
    · subst hkk
      cases hl : decls.lookup k with
      | none => simp [hl] at h
      | some t =>
        simp only [hl] at h
        exact ⟨t, v', rfl, by simp [List.lookup], h.1⟩
    · have hk2 : k ∈ rest.map Prod.fst := by
        simp only [List.map_cons, List.mem_cons] at hk
        rcases hk with hk | hk
        · exact absurd hk hkk
        · exact hk
      obtain ⟨t, v, h1, h2, h3⟩ := ih h.2 hk2
      refine ⟨t, v, h1, ?_, h3⟩
      have : (k == k') = false := by simpa using hkk
      simp [List.lookup, this, h2]

/-! ## Lemmas on reachability -/

/-- What a round of the search adds is mentioned by something already seen. -/
theorem reachable_of_mem_expand (d : Document) (roots seen : List String)
    (hs : ∀ n ∈ seen, d.Reachable roots n) :
    ∀ n ∈ d.expand seen, d.Reachable roots n := by
  intro n hn
  simp only [Document.expand, List.mem_append, List.mem_filter, List.mem_flatMap] at hn
  rcases hn with hn | ⟨⟨a, ha, hab⟩, _⟩
  · exact hs n hn
  · obtain ⟨r, hr, hra⟩ := hs a ha
    exact ⟨r, hr, hra.tail hab⟩

/-- The search finds only reachable names. -/
theorem reachable_of_mem_closure (d : Document) (roots : List String) :
    ∀ (k : Nat) (seen : List String), (∀ n ∈ seen, d.Reachable roots n) →
      ∀ n ∈ d.closure k seen, d.Reachable roots n := by
  intro k
  induction k with
  | zero => intro seen hs n hn; exact hs n hn
  | succ k ih =>
    intro seen hs n hn
    exact ih (d.expand seen) (reachable_of_mem_expand d roots seen hs) n hn

/-- Every name the search finds from the roots is reachable from them. -/
theorem reachable_of_mem_reachableNames (d : Document) (n : String)
    (h : n ∈ d.reachableNames) : d.Reachable d.roots n :=
  reachable_of_mem_closure d d.roots d.types.length d.roots
    (fun r hr => ⟨r, hr, Relation.ReflTransGen.refl⟩) n h

/-! ## The root operation types -/

/-- C1: the type bound to `query` is `Query`; it declares exactly the seven
fields post(id), profile(), threadSlice(tags, query), thread(id),
unreadNotiCount(), notification(type, query), tags(), in this order and with
exactly these argument names, and each of them has a non-null return type. -/
theorem query_fields :
    Schema.rootType "query" = some "Query" ∧
    ∃ fs, Schema.rootFields "query" = some fs ∧
      fs.length = 7 ∧
      fs.map Field.signature =
        [("post", ["id"]), ("profile", []), ("threadSlice", ["tags", "query"]),
         ("thread", ["id"]), ("unreadNotiCount", []),
         ("notification", ["type", "query"]), ("tags", [])] ∧
      fs.all (fun f => f.type.isNonNull) = true := by
  refine ⟨by decide, _, rfl, by decide, by decide, by decide⟩

/-- C2: the type bound to `mutation` is `Mutation`; it declares exactly the
seven fields pubPost(post), auth(email), setName(name), syncTags(tags),
addSubbedTags(tags), delSubbedTags(tags), pubThread(thread); each takes exactly
one argument, that argument's type is non-null, and the return type is
non-null. -/
theorem mutation_fields :
    Schema.rootType "mutation" = some "Mutation" ∧
    ∃ fs, Schema.rootFields "mutation" = some fs ∧
      fs.length = 7 ∧
      fs.map Field.signature =
        [("pubPost", ["post"]), ("auth", ["email"]), ("setName", ["name"]),
         ("syncTags", ["tags"]), ("addSubbedTags", ["tags"]),
         ("delSubbedTags", ["tags"]), ("pubThread", ["thread"])] ∧
      fs.all (fun f => f.args.length == 1) = true ∧
      fs.all (fun f => f.args.all (fun a => a.type.isNonNull)) = true ∧
      fs.all (fun f => f.type.isNonNull) = true := by
  refine ⟨by decide, _, rfl, by decide, by decide, by decide, by decide, by decide⟩

/-! ## Pagination -/

/-- C3: across all fields of all object types, a field takes a `SliceQuery`
argument exactly when its return type is an object type declaring
`sliceInfo: SliceInfo!` and a list-typed field; the fields concerned are
Query.threadSlice, Query.notification and Thread.replies, returning ThreadSlice,
NotiSlice and PostSlice; SliceQuery declares exactly before, after, limit and
SliceInfo exactly firstCursor, lastCursor. -/
theorem pagination_contract :
    (∀ p ∈ Schema.allObjectFields,
      (p.2.hasSliceQueryArg = true ↔ p.2.returnsSlice Schema = true)) ∧
    (Schema.allObjectFields.filter (fun p => p.2.hasSliceQueryArg)).map
        (fun p => (p.1, p.2.name, p.2.type)) =
      [("Query", "threadSlice", .nonNull (.named "ThreadSlice")),
       ("Query", "notification", .nonNull (.named "NotiSlice")),
       ("Thread", "replies", .nonNull (.named "PostSlice"))] ∧
    (Schema.allObjectFields.filter (fun p => p.2.hasSliceQueryArg)).all
        (fun p => p.2.args.any (fun a => a.type == .nonNull (.named "SliceQuery"))) = true ∧
    (Schema.inputFieldsOf "SliceQuery").map (fun fs => fs.map (·.name)) =
      some ["before", "after", "limit"] ∧
    (Schema.objectFields "SliceInfo").map (fun fs => fs.map (·.name)) =
      some ["firstCursor", "lastCursor"] := by
  refine ⟨by decide, by decide, by decide, by decide, by decide⟩

/-! ## Notifications -/

/-- C4: SystemNoti, RepliedNoti and Quoted each declare the four common fields
id: String!, type: String!, eventTime: Time!, hasRead: Boolean! in the same
shape; the fields of each that neither of the other two declares in the same
shape are title, content (SystemNoti), repliers (RepliedNoti) and post, quoters
(Quoted); the discriminator `type` has the built-in type String (no definition
named String exists), and the schema declares no union and no interface. -/
theorem notification_variants :
    (["SystemNoti", "RepliedNoti", "Quoted"].all
      (fun n => (Schema.objectFields n).isSome &&
        commonNotiFields.all (fun c => (Schema.shapesOf n).contains c)) = true) ∧
    Schema.ownFields "SystemNoti" ["RepliedNoti", "Quoted"] = ["title", "content"] ∧
    Schema.ownFields "RepliedNoti" ["SystemNoti", "Quoted"] = ["repliers"] ∧
    Schema.ownFields "Quoted" ["SystemNoti", "RepliedNoti"] = ["post", "quoters"] ∧
    (["SystemNoti", "RepliedNoti", "Quoted"].all
      (fun n => ((Schema.field? n "type").map (·.type)) == some (.nonNull (.named "String"))) = true) ∧
    (Schema.find? "String").isNone = true ∧
    Schema.types.all (fun td => !td.isUnion && !td.isInterface) = true := by
  refine ⟨by decide, by decide, by decide, by decide, by decide, by decide, by decide⟩

/-! ## Entities -/

/-- C5: Post declares exactly id, anonymous, author, content, createTime,
quotes, quoteCount, with quotes a list of Post; Thread declares exactly id,
anonymous, author, content, createTime, mainTag, subTags, title, replies,
replyCount, and replies is its only field with an argument; User declares
exactly email, name, tags, and name is its only nullable non-list field. -/
theorem entity_fields :
    (Schema.find? "Post").map (fun td => (td.isObject, td.fieldNames)) =
      some (true, ["id", "anonymous", "author", "content", "createTime", "quotes", "quoteCount"]) ∧
    (Schema.field? "Post" "quotes").map (fun f => (f.type, f.type.elem?.map GType.namedType)) =
      some (.list (.nonNull (.named "Post")), some "Post") ∧
    (Schema.find? "Thread").map (fun td => (td.isObject, td.fieldNames)) =
      some (true, ["id", "anonymous", "author", "content", "createTime", "mainTag", "subTags",
        "title", "replies", "replyCount"]) ∧
    (Schema.objectFields "Thread").map
        (fun fs => (fs.filter (fun f => !f.args.isEmpty)).map (·.name)) =
      some ["replies"] ∧
    (Schema.find? "User").map (fun td => (td.isObject, td.fieldNames)) =
      some (true, ["email", "name", "tags"]) ∧
    (Schema.objectFields "User").map
        (fun fs => (fs.filter (fun f => !f.type.isNonNull && !f.type.isList)).map (·.name)) =
      some ["name"] := by
  refine ⟨by decide, by decide, by decide, by decide, by decide, by decide⟩

/-! ## What the input types accept -/

/-- C6, as stated, fails: a `SliceQuery` value that supplies neither cursor
conforms to the input type, and so does one that supplies both. -/
theorem sliceQuery_cursors_not_exclusive :
    conforms Schema (fun _ _ => false) (.nonNull (.named "SliceQuery"))
        (sliceQueryValue none none 10) = true ∧
    cursorsSupplied (sliceQueryValue none none 10) = 0 ∧
    conforms Schema (fun _ _ => false) (.nonNull (.named "SliceQuery"))
        (sliceQueryValue (some "") (some "") 10) = true ∧
    cursorsSupplied (sliceQueryValue (some "") (some "") 10) = 2 := by
  decide

/-- C6, amended: `SliceQuery` declares exactly before, after, limit; `before`
and `after` are both declared `String`, nullable and without a default value,
and the either/or rule is stated only in their comments; `limit` is declared
`Int!` without a default value and is the only field that must be present;
every value that conforms to `SliceQuery!` is an object whose `limit` is an
integer in the 32-bit range; and for every choice of the two cursors, each
absent or a string, and every limit in range, the value conforms, so the input
type accepts both cursors, one of them, or none. -/
theorem sliceQuery_conformance (ok : String → Value → Bool) :
    (Schema.inputFieldsOf "SliceQuery").map (fun fs => fs.map (·.name)) =
      some ["before", "after", "limit"] ∧
    (Schema.inputField? "SliceQuery" "before").map
        (fun f => (f.desc, f.type, f.type.isNonNull, f.default.isNone)) =
      some (["Either this field or 'after' is required.",
             "An empty string means slice from the beginning."],
            .named "String", false, true) ∧
    (Schema.inputField? "SliceQuery" "after").map
        (fun f => (f.desc, f.type, f.type.isNonNull, f.default.isNone)) =
      some (["Either this field or 'before' is required.",
             "An empty string means slice to the end."],
            .named "String", false, true) ∧
    (Schema.inputField? "SliceQuery" "limit").map
        (fun f => (f.desc, f.type, f.type.isNonNull, f.default.isNone)) =
      some (["Set the amount of returned items."], .nonNull (.named "Int"), true, true) ∧
    Schema.requiredInputFields "SliceQuery" = some ["limit"] ∧
    (∀ v, conforms Schema ok (.nonNull (.named "SliceQuery")) v = true →
      ∃ fs n, v = .obj fs ∧ fs.lookup "limit" = some (.int n) ∧ inIntRange n = true) ∧
    (∀ before after limit, inIntRange limit = true →
      conforms Schema ok (.nonNull (.named "SliceQuery"))
        (sliceQueryValue before after limit) = true) := by
  refine ⟨by decide, by decide, by decide, by decide, by decide, ?_, ?_⟩
  · intro v h
    cases v with
    | null => simp [conforms, GType.isNonNull] at h
    | int i =>
      simp [conforms, GType.nullable, leafConforms, Document.isCustomScalar, Document.find?,
        Schema, TypeDef.name] at h
    | str s =>
      simp [conforms, GType.nullable, leafConforms, Document.isCustomScalar, Document.find?,
        Schema, TypeDef.name] at h
    | bool b =>
      simp [conforms, GType.nullable, leafConforms, Document.isCustomScalar, Document.find?,
        Schema, TypeDef.name] at h
    | list vs => simp [conforms, GType.nullable] at h
    | obj fs =>
      simp only [conforms, GType.nullable, record_SliceQuery, Bool.and_eq_true] at h
      obtain ⟨⟨_, hreq⟩, hfs⟩ := h
      have hk : "limit" ∈ fs.map Prod.fst := by simpa using hreq
      obtain ⟨t, w, ht, hw, hc⟩ := lookup_of_conformsFields Schema ok _ "limit" fs hfs hk
      have ht2 : t = .nonNull (.named "Int") := by
        simp [List.lookup] at ht
        exact ht.symm
      subst ht2
      obtain ⟨n, hn, hr⟩ := int_of_conforms ok w hc
      subst hn
      exact ⟨fs, n, rfl, hw, hr⟩
  · intro before after limit hl
    cases before <;> cases after <;>
      simp [sliceQueryValue, conforms, GType.nullable, record_SliceQuery, conformsFields,
        List.lookup, leafConforms, isCustomScalar_String, isCustomScalar_Int, hl]

/-- C6 at a concrete input: a query with only `before` set and limit 20 conforms. -/
theorem sliceQuery_conformance_witness :
    conforms Schema (fun _ _ => false) (.nonNull (.named "SliceQuery"))
      (sliceQueryValue (some "") none 20) = true :=
  (sliceQuery_conformance _).2.2.2.2.2.2 (some "") none 20 (by decide)

/-- C7: ThreadInput.subTags and Thread.subTags, both documented "maximum of 4",
are declared with the type `[String!]`; a list of strings of any length
conforms to that type (for every n there is one of length n), and so does an
absent value; a ThreadInput value with any number of subTags conforms. -/
theorem subTags_not_bounded (ok : String → Value → Bool) :
    (Schema.inputField? "ThreadInput" "subTags").map (fun f => (f.desc, f.type)) =
      some (["Optional, maximum of 4."], .list (.nonNull (.named "String"))) ∧
    (Schema.field? "Thread" "subTags").map (fun f => (f.desc, f.type)) =
      some (["Optional, maximum of 4."], .list (.nonNull (.named "String"))) ∧
    (∀ ss : List String,
      conforms Schema ok (.list (.nonNull (.named "String"))) (.list (ss.map .str)) = true) ∧
    (∀ n : Nat, ∃ ss : List String, ss.length = n ∧
      conforms Schema ok (.list (.nonNull (.named "String"))) (.list (ss.map .str)) = true) ∧
    conforms Schema ok (.list (.nonNull (.named "String")))
      (.list [.str "a", .str "b", .str "c", .str "d", .str "e"]) = true ∧
    conformsOpt Schema ok (.list (.nonNull (.named "String"))) none = true ∧
    (∀ (a : Bool) (c m : String) (ss : List String),
      conforms Schema ok (.nonNull (.named "ThreadInput"))
        (.obj [("anonymous", .bool a), ("content", .str c), ("mainTag", .str m),
               ("subTags", .list (ss.map .str))]) = true) := by
  have hlist : ∀ ss : List String,
      conforms Schema ok (.list (.nonNull (.named "String"))) (.list (ss.map .str)) = true := by
    intro ss
    simp [conforms, GType.nullable, conformsList_strs]
  refine ⟨by decide, by decide, hlist, ?_, ?_, by simp [conformsOpt, GType.isNonNull], ?_⟩
  · intro n
    exact ⟨List.replicate n "", by simp, hlist _⟩
  · exact hlist ["a", "b", "c", "d", "e"]
  · intro a c m ss
    simp [conforms, GType.nullable, record_ThreadInput, conformsFields, List.lookup,
      leafConforms, isCustomScalar_String, isCustomScalar_Boolean, conformsList_strs]

/-- C8: ThreadInput.title is declared `String`, nullable and without a default
value; the fields of ThreadInput that must be present are exactly anonymous,
content, mainTag, and a value made of these three alone conforms; Thread.title
is declared `String` as well, and a Thread value without a title conforms
whenever its createTime conforms to `Time!`. -/
theorem title_default_not_in_schema (ok : String → Value → Bool) :
    (Schema.inputField? "ThreadInput" "title").map
        (fun f => (f.type, f.default.isNone)) = some (.named "String", true) ∧
    Schema.requiredInputFields "ThreadInput" = some ["anonymous", "content", "mainTag"] ∧
    (∀ (a : Bool) (c m : String),
      conforms Schema ok (.nonNull (.named "ThreadInput"))
        (.obj [("anonymous", .bool a), ("content", .str c), ("mainTag", .str m)]) = true) ∧
    (Schema.field? "Thread" "title").map (fun f => (f.args.isEmpty, f.type)) =
      some (true, .named "String") ∧
    conformsOpt Schema ok (.named "String") none = true ∧
    (∀ (t : Value) (a : Bool) (i au c m fc lc : String) (n : Int),
      conforms Schema ok (.nonNull (.named "Time")) t = true → inIntRange n = true →
      conforms Schema ok (.nonNull (.named "Thread"))
        (.obj [("id", .str i), ("anonymous", .bool a), ("author", .str au), ("content", .str c),
               ("createTime", t), ("mainTag", .str m),
               ("replies", .obj [("posts", .list []),
                  ("sliceInfo", .obj [("firstCursor", .str fc), ("lastCursor", .str lc)])]),
               ("replyCount", .int n)]) = true) := by
  refine ⟨by decide, by decide, ?_, by decide, by simp [conformsOpt, GType.isNonNull], ?_⟩
  · intro a c m
    simp [conforms, GType.nullable, record_ThreadInput, conformsFields, List.lookup,
      leafConforms, isCustomScalar_String, isCustomScalar_Boolean]
  · intro t a i au c m fc lc n ht hn
    simp [conforms, GType.nullable, record_Thread, record_PostSlice, record_SliceInfo,
      conformsFields, conformsList, List.lookup, leafConforms, isCustomScalar_String,
      isCustomScalar_Boolean, isCustomScalar_Int, ht, hn]

/-- C8 at a concrete input: with times written as strings, a Thread without a
title conforms to `Thread!`. -/
theorem title_default_not_in_schema_witness :
    conforms Schema (fun _ v => match v with | .str _ => true | _ => false)
      (.nonNull (.named "Thread"))
      (.obj [("id", .str "5f3a9c1e"), ("anonymous", .bool true), ("author", .str "5f3a9c1e"),
             ("content", .str "hello"), ("createTime", .str "2019-01-01T00:00:00Z"),
             ("mainTag", .str "main"),
             ("replies", .obj [("posts", .list []),
                ("sliceInfo", .obj [("firstCursor", .str ""), ("lastCursor", .str "")])]),
             ("replyCount", .int 0)]) = true :=
  (title_default_not_in_schema _).2.2.2.2.2 _ _ _ _ _ _ _ _ _ (by decide) (by decide)

/-! ## Well-formedness of the schema -/

/-- C9: every type name mentioned in the schema (root operation types, return
types, argument types, input field types) is String, Int or Boolean or is
declared; no type name is declared twice; no definition declares two fields of
the same name; Time is the only scalar declared; and every declared type is
reachable from the root types Query and Mutation. -/
theorem schema_closed :
    (∀ n ∈ Schema.referenced, n ∈ ["String", "Int", "Boolean"] ∨ n ∈ Schema.typeNames) ∧
    Schema.typeNames.Nodup ∧
    (∀ td ∈ Schema.types, td.fieldNames.Nodup) ∧
    (Schema.types.filter TypeDef.isScalar).map TypeDef.name = ["Time"] ∧
    Schema.roots = ["Query", "Mutation"] ∧
    (∀ n ∈ Schema.typeNames, Schema.Reachable ["Query", "Mutation"] n) := by
  refine ⟨by decide, by decide, by decide, by decide, by decide, ?_⟩
  intro n hn
  have hmem : ∀ m ∈ Schema.typeNames, m ∈ Schema.reachableNames := by decide
  exact reachable_of_mem_reachableNames Schema n (hmem n hn)

/-- C10: the input types are exactly PostInput, ThreadInput and SliceQuery;
the type of every argument and of every field of an input type names a scalar
or an input type; the return type of every field of every object type names a
scalar or an object type, and never one of the three input types. -/
theorem input_output_separation :
    (Schema.types.filter TypeDef.isInput).map TypeDef.name =
      ["PostInput", "ThreadInput", "SliceQuery"] ∧
    (∀ t ∈ Schema.inputPositions,
      Schema.isScalarName t.namedType = true ∨ Schema.isInputName t.namedType = true) ∧
    (∀ t ∈ Schema.outputPositions,
      (Schema.isScalarName t.namedType = true ∨ Schema.isObjectName t.namedType = true) ∧
      t.namedType ∉ ["PostInput", "ThreadInput", "SliceQuery"]) := by
  refine ⟨by decide, by decide, by decide⟩

end resolver
